import Mathlib

/-!
Verification of the 2D two-stage launch trajectory simulator (`main_e.py`).

The numerical model is embedded shallowly over `ℚ`: the Python floats are
modelled as exact rationals, and the transcendental library calls
(`np.sqrt`, `np.cos`, `np.sin`, `np.arctan2`, `**0.5`, `**1.5`, `np.pi`)
together with the external `atmosphere.Atmosphere` collaborator are
abstracted into a `MathOps` record of function parameters, so that every
definition stays computable and the control flow of the source is preserved
exactly.
-/

namespace LaunchSim

/-- Python-level runtime error relevant to `Stage.__init__`: the only way the
constructor can fail is a `ZeroDivisionError` raised by one of its two
divisions (`main_e.py` lines 32-33); there is no validation code. -/
inductive PyError where
  | zeroDivision
deriving Repr, DecidableEq

/-- The `Stage` object after a successful `__init__` (`main_e.py` lines 20-34):
the eight constructor arguments plus the three derived fields `mdot`, `tb`,
`M`. -/
structure Stage where
  Name : String
  Thrust : ℚ
  Cd : ℚ
  A : ℚ
  Isp : ℚ
  Ms : ℚ
  Mf : ℚ
  Mp : ℚ
  mdot : ℚ
  tb : ℚ
  M : ℚ
deriving Repr, DecidableEq

/-- `Stage.__init__` (`main_e.py` lines 20-34).  It stores the arguments and
computes `mdot = Thrust/(Isp*9.81)`, `tb = Mf/mdot`, `M = Ms + Mf + Mp`.
In Python the two divisions raise `ZeroDivisionError` when their denominator
is zero; there is no other failure path (no validation of signs). -/
def mkStage (Name : String) (Thrust Cd A Isp Ms Mf Mp : ℚ) : Except PyError Stage :=
  if Isp * (9.81 : ℚ) = 0 then Except.error PyError.zeroDivision
  else
    let mdot := Thrust / (Isp * (9.81 : ℚ))
    if mdot = 0 then Except.error PyError.zeroDivision
    else Except.ok
      { Name := Name, Thrust := Thrust, Cd := Cd, A := A, Isp := Isp
        Ms := Ms, Mf := Mf, Mp := Mp
        mdot := mdot, tb := Mf / mdot, M := Ms + Mf + Mp }

/-- Drag-coefficient polynomial for `M ≤ 1.25` (`main_e.py` line 52). -/
def cd1 (M : ℚ) : ℚ := -(0.0415 : ℚ) * M ^ 3 + (0.3892 : ℚ) * M ^ 2 - (0.2614 : ℚ) * M + (0.303 : ℚ)

/-- Drag-coefficient polynomial for `1.25 < M ≤ 4` (`main_e.py` line 56). -/
def cd2 (M : ℚ) : ℚ := -(0.049 : ℚ) * M ^ 4 + (0.5664 : ℚ) * M ^ 3 - (2.3265 : ℚ) * M ^ 2 + (3.8512 : ℚ) * M - (1.6625 : ℚ)

/-- Drag-coefficient polynomial for `4 < M ≤ 10` (`main_e.py` line 60). -/
def cd3 (M : ℚ) : ℚ := -(0.0037 : ℚ) * M ^ 3 + (0.0695 : ℚ) * M ^ 2 - (0.4105 : ℚ) * M + (0.9732 : ℚ)

/-- Abstraction of the transcendental floating-point library functions used by
the source, plus the external `atmosphere.Atmosphere` collaborator
(altitude ↦ (temperature, density)).  `pow3half` stands for Python's
`x ** 1.5` (`main_e.py` lines 88-89); `sqrt` stands for both `np.sqrt` and
`x ** 0.5`. -/
structure MathOps where
  pi : ℚ
  sqrt : ℚ → ℚ
  cos : ℚ → ℚ
  sin : ℚ → ℚ
  atan2 : ℚ → ℚ → ℚ
  pow3half : ℚ → ℚ
  Atmosphere : ℚ → ℚ × ℚ

/-- `np.deg2rad` — degrees to radians. -/
def deg2rad (ops : MathOps) (x : ℚ) : ℚ := x * ops.pi / 180

/-- `Stage.GetDrag` (`main_e.py` lines 37-68): queries the atmosphere at `h`,
computes the speed of sound with `gamma = 1.14`, `R = 287`, the Mach number
`M = V / a`, selects `Cd` from the four-regime piecewise polynomial, and
returns `(Dx, Dy) = (0.5*rho*vx*V*A*Cd, 0.5*rho*vy*V*A*Cd)` with the stage's
reference area `A`.  In `ℚ` the four branch conditions are exhaustive, so the
final `elif M > 10` becomes the `else` branch. -/
def Stage.GetDrag (ops : MathOps) (s : Stage) (h V vx vy : ℚ) : ℚ × ℚ :=
  let gamma : ℚ := (1.14 : ℚ)
  let R : ℚ := 287
  let T := (ops.Atmosphere h).1
  let rho := (ops.Atmosphere h).2
  let A := ops.sqrt (gamma * R * T)
  let M := V / A
  let Cd :=
    if M ≤ (1.25 : ℚ) then cd1 M
    else if (1.25 : ℚ) < M ∧ M ≤ 4 then cd2 M
    else if 4 < M ∧ M ≤ 10 then cd3 M
    else (0.255 : ℚ)
  (0.5 * rho * vx * V * s.A * Cd, 0.5 * rho * vy * V * s.A * Cd)

/-- The 4-component vehicle state `[rx, ry, vx, vy]` (position and velocity in
the Earth-centred 2D Cartesian frame).  The integrator keeps the four
components in the parallel arrays `X`, `Y`, `Vx`, `Vy`. -/
structure SV where
  rx : ℚ
  ry : ℚ
  vx : ℚ
  vy : ℚ
deriving Repr, DecidableEq

/-- The per-step diagnostic vector `v_state = [Tx, Ty, Dx, Dy, M, phi]`
(`main_e.py` line 141). -/
structure Diag where
  Tx : ℚ
  Ty : ℚ
  Dx : ℚ
  Dy : ℚ
  M : ℚ
  phi : ℚ
deriving Repr, DecidableEq

/-- The all-zero diagnostic row: `np.zeros((steps+1, 6))` initialises every
row of `v_states` to this value (`main_e.py` line 164). -/
def diagZero : Diag := ⟨0, 0, 0, 0, 0, 0⟩

/-- The thrust-pointing angle `psi` computed by `EqOfM`
(`main_e.py` lines 104-116), extracted as a named function of the quantities
it reads: the state (through `h = sqrt(rx²+ry²) - Re` and
`phi = atan2(vy, vx)`), the elapsed time, and stage 1 (through its burn
time).  Default `psi = deg2rad 90`, `kick = deg2rad 83`; inside the window
`t < tb + 300` and `h > 100`, `psi` becomes `deg2rad 87` when `phi > kick`
and `phi` otherwise.  The `if phi > kick / elif phi <= kick` pair is
exhaustive over `ℚ` and becomes a single `if`. -/
def psiOf (ops : MathOps) (STATE : SV) (t : ℚ) (F9S1 : Stage) : ℚ :=
  let h := ops.sqrt (STATE.rx ^ 2 + STATE.ry ^ 2) - (6378e3 : ℚ)
  let phi := ops.atan2 STATE.vy STATE.vx
  let psi0 := deg2rad ops 90
  let kick := deg2rad ops 83
  if t < F9S1.tb + 300 then
    if h > 100 then
      if phi > kick then deg2rad ops 87 else phi
    else psi0
  else psi0

/-- `EqOfM` (`main_e.py` lines 70-145): the 2D Cartesian equations of motion.
The stage list has exactly two entries (`stages[0]`, `stages[1]`), modelled as
a pair.  Returns the state derivative and the diagnostic vector.  The
`if t <= tb / elif t > tb` pair on lines 97-102 is exhaustive over `ℚ` and
becomes a single `if`; the `psi` block of lines 104-116 is the extracted
`psiOf` above. -/
def EqOfM (ops : MathOps) (STATE : SV) (t : ℚ) (stages : Stage × Stage) : SV × Diag :=
  let mu : ℚ := (3.986e14 : ℚ)
  let Re : ℚ := (6378e3 : ℚ)
  let rx := STATE.rx
  let ry := STATE.ry
  let vx := STATE.vx
  let vy := STATE.vy
  let R := ops.sqrt (rx ^ 2 + ry ^ 2)
  let V := ops.sqrt (vx ^ 2 + vy ^ 2)
  let gx := -mu * rx / ops.pow3half (rx ^ 2 + ry ^ 2)
  let gy := -mu * ry / ops.pow3half (rx ^ 2 + ry ^ 2)
  let F9S1 := stages.1
  let F9S2 := stages.2
  let M := if t ≤ F9S1.tb then F9S1.M - F9S1.mdot * t else F9S2.M - F9S2.mdot * (t - F9S1.tb)
  let TT := if t ≤ F9S1.tb then F9S1.Thrust else F9S2.Thrust
  let phi := ops.atan2 vy vx
  let psi := psiOf ops STATE t F9S1
  let Tx := TT * ops.cos psi
  let Ty := TT * ops.sin psi
  let D := Stage.GetDrag ops F9S1 (R - (6378e3 : ℚ)) V vx vy
  let Dx := D.1
  let Dy := D.2
  (⟨vx, vy, Tx / M - Dx / M + gx, Ty / M - Dy / M + gy⟩, ⟨Tx, Ty, Dx, Dy, M, phi⟩)

/-- The guard of the diagnostic notice in `EqOfM` (`main_e.py` lines 135-137):
`print("Solution terminated, flight altitude less than 0")` fires exactly when
`t > 0` and `R - Re ≤ 0`.  It is a side effect only — it does not change the
returned values and does not halt anything. -/
def altNotice (ops : MathOps) (STATE : SV) (t : ℚ) : Bool :=
  decide (t > 0) && decide (ops.sqrt (STATE.rx ^ 2 + STATE.ry ^ 2) - (6378e3 : ℚ) ≤ 0)

/-- `steps = len(np.arange(t0, Tf, dt))` (`main_e.py` line 156): the number of
multiples of `dt` in `[t0, Tf)`, i.e. `max 0 ⌈(Tf - t0)/dt⌉` for `dt > 0`. -/
def arangeLen (t0 Tf dt : ℚ) : ℕ := (⌈(Tf - t0) / dt⌉).toNat

/-- One Euler update (`main_e.py` lines 179-185): evaluate `EqOfM` at the
current state and time and advance each state component by `dt` times the
corresponding derivative component. -/
def stateStep (ops : MathOps) (stages : Stage × Stage) (dt : ℚ) (s : SV) (t : ℚ) : SV :=
  let d := (EqOfM ops s t stages).1
  ⟨s.rx + dt * d.rx, s.ry + dt * d.ry, s.vx + dt * d.vx, s.vy + dt * d.vy⟩

/-- The state sequence produced by the `while` loop of `euler`: index `n`
holds `(X[n], Y[n], Vx[n], Vy[n])`.  Iteration `n` of the loop runs at time
`t0 + n*dt` (the loop variable `t` after `n` increments, in exact
arithmetic). -/
def stateSeq (ops : MathOps) (STATE0 : SV) (t0 dt : ℚ) (stages : Stage × Stage) : ℕ → SV
  | 0 => STATE0
  | n + 1 => stateStep ops stages dt (stateSeq ops STATE0 t0 dt stages n) (t0 + n * dt)

/-- The time array `T_array` of `euler`: initialised to zeros
(`main_e.py` line 162); index 0 is never written, and iteration `n` writes
`T_array[n+1] = t0 + (n+1)*dt` (line 188, after the increment of `t`). -/
def Tarr (t0 dt : ℚ) (n : ℕ) : ℚ := if n = 0 then 0 else t0 + n * dt

/-- Row `n` of the diagnostics table `v_states`: iteration `n` of the loop
writes `v_states[n, :] = S[1][:]` (`main_e.py` line 186), so rows
`0 .. steps-1` hold the diagnostic computed at `(state[n], t0 + n*dt)` and
row `steps` keeps its zero initialisation. -/
def diagRow (ops : MathOps) (STATE0 : SV) (t0 dt Tf : ℚ) (stages : Stage × Stage) (n : ℕ) : Diag :=
  if n < arangeLen t0 Tf dt then
    (EqOfM ops (stateSeq ops STATE0 t0 dt stages n) (t0 + n * dt) stages).2
  else diagZero

/-- `euler` (`main_e.py` lines 148-199): fixed-step explicit Euler
integration.  Returns the `(steps+1) × 5` table `STATEF` with rows
`(T_array[n], X[n], Y[n], Vx[n], Vy[n])` and the `(steps+1) × 6` diagnostics
table `v_states`.  In exact arithmetic with `dt > 0` the `while t < Tf` loop
runs exactly `steps` iterations (see `euler_loop_guard`), which is what this
definition encodes. -/
def euler (ops : MathOps) (STATE0 : SV) (t0 dt Tf : ℚ) (stages : Stage × Stage) :
    List (ℚ × ℚ × ℚ × ℚ × ℚ) × List Diag :=
  let steps := arangeLen t0 Tf dt
  ((List.range (steps + 1)).map fun n =>
      (Tarr t0 dt n, (stateSeq ops STATE0 t0 dt stages n).rx,
        (stateSeq ops STATE0 t0 dt stages n).ry,
        (stateSeq ops STATE0 t0 dt stages n).vx,
        (stateSeq ops STATE0 t0 dt stages n).vy),
   (List.range (steps + 1)).map fun n => diagRow ops STATE0 t0 dt Tf stages n)

/-- Faithfulness of the step count: for `dt > 0`, the `while t < Tf` guard at
the start of iteration `n` (where `t = t0 + n*dt` in exact arithmetic) holds
exactly when `n < steps` with `steps = len(np.arange(t0, Tf, dt))`.  Hence
the loop runs exactly `steps` iterations, writing state rows `1 .. steps`
and diagnostic rows `0 .. steps-1`, and the guard never consults the state. -/
theorem euler_loop_guard (t0 Tf dt : ℚ) (hdt : 0 < dt) (n : ℕ) :
    t0 + n * dt < Tf ↔ n < arangeLen t0 Tf dt := by
  unfold arangeLen
  rw [Int.lt_toNat, Int.lt_ceil, lt_div_iff₀ hdt]
  constructor <;> intro h <;> push_cast at h ⊢ <;> linarith

/-- The drag-coefficient table written the way the specification words it
(claim C4): breakpoints at `M = 1.25`, `4`, `10`, constant `0.255` above
`10` — each test subsumes the previous `else`. -/
def cdClaim (M : ℚ) : ℚ :=
  if M ≤ (1.25 : ℚ) then cd1 M
  else if M ≤ 4 then cd2 M
  else if M ≤ 10 then cd3 M
  else (0.255 : ℚ)

/-- The drag computation as the specification words it (claim C4):
`M = V / sqrt(1.14 * 287 * T)` with `(T, rho)` from the atmosphere model,
`Cd` from `cdClaim`, `Dx = 0.5*rho*vx*V*A*Cd`, `Dy = 0.5*rho*vy*V*A*Cd`. -/
def getDragClaim (ops : MathOps) (s : Stage) (h V vx vy : ℚ) : ℚ × ℚ :=
  let T := (ops.Atmosphere h).1
  let rho := (ops.Atmosphere h).2
  let M := V / ops.sqrt ((1.14 : ℚ) * 287 * T)
  let Cd := cdClaim M
  (0.5 * rho * vx * V * s.A * Cd, 0.5 * rho * vy * V * s.A * Cd)

/-- The source's four-branch `Cd` selection agrees with the spec-worded
`cdClaim` at every Mach number: the redundant lower-bound conjuncts of the
`elif` tests are implied by the failure of the earlier tests. -/
theorem cdSelect_eq_cdClaim (M : ℚ) :
    (if M ≤ (1.25 : ℚ) then cd1 M
     else if (1.25 : ℚ) < M ∧ M ≤ 4 then cd2 M
     else if 4 < M ∧ M ≤ 10 then cd3 M
     else (0.255 : ℚ)) = cdClaim M := by
  unfold cdClaim
  rcases le_or_lt M (1.25 : ℚ) with h1 | h1
  · simp [h1]
  · rcases le_or_lt M (4 : ℚ) with h2 | h2
    · simp [not_le.mpr h1, h1, h2]
    · rcases le_or_lt M (10 : ℚ) with h3 | h3
      · have hB : ¬((1.25 : ℚ) < M ∧ M ≤ 4) := fun hc => absurd hc.2 (not_le.mpr h2)
        simp [not_le.mpr h1, hB, h2, h3, not_le.mpr h2]
      · have hB : ¬((1.25 : ℚ) < M ∧ M ≤ 4) := fun hc => absurd hc.2 (not_le.mpr h2)
        have hC : ¬((4 : ℚ) < M ∧ M ≤ 10) := fun hc => absurd hc.2 (not_le.mpr h3)
        simp [not_le.mpr h1, hB, hC, not_le.mpr h2, not_le.mpr h3]

/-- Projection of the burn time out of a constructed stage (error ↦ 0);
used to state facts about `mkStage` results. -/
def tbOf : Except PyError Stage → ℚ
  | Except.ok s => s.tb
  | Except.error _ => 0

/-- A concrete instantiation of the transcendental/atmosphere oracle, used
only to evaluate the model at concrete inputs in the witnesses below. -/
def opsQ : MathOps :=
  { pi := (3.14159 : ℚ), sqrt := fun x => x, cos := fun _ => 1, sin := fun _ => 0,
    atan2 := fun _ _ => 0, pow3half := fun x => x, Atmosphere := fun _ => (288, (1.225 : ℚ)) }

/-- A concrete stage with `mdot = 981/(100·9.81) = 1`, `tb = 1000`,
`M = 1015`. -/
def S1c : Stage :=
  { Name := "S1", Thrust := 981, Cd := (0.3 : ℚ), A := 1, Isp := 100, Ms := 10, Mf := 1000,
    Mp := 5, mdot := 1, tb := 1000, M := 1015 }

/-- A second concrete stage with `mdot = 1`, `tb = 500`, `M = 520`. -/
def S2c : Stage :=
  { Name := "S2", Thrust := 1962, Cd := (0.3 : ℚ), A := 1, Isp := 200, Ms := 20, Mf := 500,
    Mp := 0, mdot := 1, tb := 500, M := 520 }

/-- The driver's initial state `(0, Re, 0, 0)` (`main_e.py` lines 220-224). -/
def s0c : SV := ⟨0, (6378e3 : ℚ), 0, 0⟩

/-- Claim C1: for every initial state, start time `t0`, step `dt > 0`, final
time `Tf` and stage pair, `euler` produces two tables of length `steps + 1`,
where `steps` is the number of `dt`-size steps fitting in `[t0, Tf)` (the
`while` guard at iteration `n` holds exactly when `n < steps`); for every
`n < steps`, `state[n+1] = state[n] + dt · EqOfM(state[n], tₙ).deriv` with
`tₙ = t0 + n·dt` the loop time, `t[n+1] = tₙ + dt` in the returned time
column, the diagnostic computed at step `n` is stored in diagnostic row `n`,
and the final diagnostic row (index `steps`) remains at its initialized zero
value. -/
theorem euler_tables_recurrence (ops : MathOps) (STATE0 : SV) (t0 dt Tf : ℚ)
    (stages : Stage × Stage) (hdt : 0 < dt) :
    (∀ n : ℕ, t0 + n * dt < Tf ↔ n < arangeLen t0 Tf dt) ∧
    (euler ops STATE0 t0 dt Tf stages).1.length = arangeLen t0 Tf dt + 1 ∧
    (euler ops STATE0 t0 dt Tf stages).2.length = arangeLen t0 Tf dt + 1 ∧
    (∀ n : ℕ, n ≤ arangeLen t0 Tf dt →
      (euler ops STATE0 t0 dt Tf stages).1.get? n =
        some (Tarr t0 dt n, (stateSeq ops STATE0 t0 dt stages n).rx,
          (stateSeq ops STATE0 t0 dt stages n).ry,
          (stateSeq ops STATE0 t0 dt stages n).vx,
          (stateSeq ops STATE0 t0 dt stages n).vy)) ∧
    (∀ n : ℕ, n < arangeLen t0 Tf dt →
      stateSeq ops STATE0 t0 dt stages (n + 1) =
        ⟨(stateSeq ops STATE0 t0 dt stages n).rx +
            dt * (EqOfM ops (stateSeq ops STATE0 t0 dt stages n) (t0 + n * dt) stages).1.rx,
          (stateSeq ops STATE0 t0 dt stages n).ry +
            dt * (EqOfM ops (stateSeq ops STATE0 t0 dt stages n) (t0 + n * dt) stages).1.ry,
          (stateSeq ops STATE0 t0 dt stages n).vx +
            dt * (EqOfM ops (stateSeq ops STATE0 t0 dt stages n) (t0 + n * dt) stages).1.vx,
          (stateSeq ops STATE0 t0 dt stages n).vy +
            dt * (EqOfM ops (stateSeq ops STATE0 t0 dt stages n) (t0 + n * dt) stages).1.vy⟩) ∧
    (∀ n : ℕ, n < arangeLen t0 Tf dt → Tarr t0 dt (n + 1) = (t0 + n * dt) + dt) ∧
    (∀ n : ℕ, n < arangeLen t0 Tf dt →
      (euler ops STATE0 t0 dt Tf stages).2.get? n =
        some (EqOfM ops (stateSeq ops STATE0 t0 dt stages n) (t0 + n * dt) stages).2) ∧
    (euler ops STATE0 t0 dt Tf stages).2.get? (arangeLen t0 Tf dt) = some diagZero := by
  refine ⟨euler_loop_guard t0 Tf dt hdt, ?_, ?_, ?_, ?_, ?_, ?_, ?_⟩
  · simp [euler]
  · simp [euler]
  · intro n hn
    have hn' : n < arangeLen t0 Tf dt + 1 := Nat.lt_succ_of_le hn
    simp [euler, List.get?_map, List.get?_range, hn']
  · intro n _
    rfl
  · intro n hn
    simp [Tarr, mul_comm]
    ring
  · intro n hn
    have hn' : n < arangeLen t0 Tf dt + 1 := Nat.lt_succ_of_lt hn
    simp [euler, List.get?_map, List.get?_range, hn', diagRow, hn]
  · simp [euler, List.get?_map, List.get?_range, diagRow]

/-- Witness for C1 at `ops = opsQ`, `STATE0 = s0c`, `t0 = 0`, `dt = 1`,
`Tf = 2`, stages `(S1c, S2c)`: the hypothesis `0 < dt` holds and the final
diagnostic row is the zero row. -/
theorem euler_tables_recurrence_witness :
    (0 : ℚ) < 1 ∧
      (euler opsQ s0c 0 1 2 (S1c, S2c)).2.get? (arangeLen 0 2 1) = some diagZero :=
  ⟨by decide, (euler_tables_recurrence opsQ s0c 0 1 2 (S1c, S2c) (by decide)).2.2.2.2.2.2.2⟩

/-- Claim C9: the integrator never terminates early.  For `dt > 0` the
`while` guard at iteration `n` depends only on `(t0, dt, Tf)` — it holds
exactly when `n < steps` — so the number of iterations is the same for every
initial state and stage pair (both tables always have length `steps + 1`);
and even at a step whose state triggers the altitude notice
(`altNotice = true`, the guard of the `print` in `EqOfM`), the very same
Euler update is applied and the diagnostic row is still written: the notice
never affects the number of steps taken or the values returned. -/
theorem euler_never_stops_early (ops : MathOps) (STATE0 : SV) (t0 dt Tf : ℚ)
    (stages : Stage × Stage) (hdt : 0 < dt) :
    (∀ n : ℕ, t0 + n * dt < Tf ↔ n < arangeLen t0 Tf dt) ∧
    (∀ STATE0' : SV, ∀ stages' : Stage × Stage,
      (euler ops STATE0' t0 dt Tf stages').1.length =
          (euler ops STATE0 t0 dt Tf stages).1.length ∧
        (euler ops STATE0' t0 dt Tf stages').2.length =
          (euler ops STATE0 t0 dt Tf stages).2.length) ∧
    (euler ops STATE0 t0 dt Tf stages).1.length = arangeLen t0 Tf dt + 1 ∧
    (∀ n : ℕ, n < arangeLen t0 Tf dt →
      altNotice ops (stateSeq ops STATE0 t0 dt stages n) (t0 + n * dt) = true →
        stateSeq ops STATE0 t0 dt stages (n + 1) =
            stateStep ops stages dt (stateSeq ops STATE0 t0 dt stages n) (t0 + n * dt) ∧
          (euler ops STATE0 t0 dt Tf stages).2.get? n =
            some (EqOfM ops (stateSeq ops STATE0 t0 dt stages n) (t0 + n * dt) stages).2) := by
  refine ⟨euler_loop_guard t0 Tf dt hdt, ?_, ?_, ?_⟩
  · intro STATE0' stages'
    simp [euler]
  · simp [euler]
  · intro n hn _
    refine ⟨rfl, ?_⟩
    have hn' : n < arangeLen t0 Tf dt + 1 := Nat.lt_succ_of_lt hn
    simp [euler, List.get?_map, List.get?_range, hn', diagRow, hn]

/-- Witness for C9 at `ops = opsQ`, `t0 = 0`, `dt = 1`, `Tf = 2`: the
hypothesis `0 < dt` holds and euler's state table has `steps + 1` rows. -/
theorem euler_never_stops_early_witness :
    (0 : ℚ) < 1 ∧
      (euler opsQ s0c 0 1 2 (S1c, S2c)).1.length = arangeLen 0 2 1 + 1 :=
  ⟨by decide, (euler_never_stops_early opsQ s0c 0 1 2 (S1c, S2c) (by decide)).2.2.1⟩

/-- Claim C10: the first entry of the time column returned by `euler` is its
array-initialization value `0`, not `t0` — `T_array[0]` is never written —
while every later entry `n + 1` (up to `steps`) holds `t0 + (n+1)·dt`.  So a
call with `t0 ≠ 0` returns a time series that nevertheless begins at `0` and
continues from `t0 + dt`. -/
theorem euler_time_row_zero (ops : MathOps) (STATE0 : SV) (t0 dt Tf : ℚ)
    (stages : Stage × Stage) :
    ((euler ops STATE0 t0 dt Tf stages).1.get? 0 =
        some (0, STATE0.rx, STATE0.ry, STATE0.vx, STATE0.vy)) ∧
      (∀ n : ℕ, n < arangeLen t0 Tf dt →
        ((euler ops STATE0 t0 dt Tf stages).1.get? (n + 1)).map (fun r => r.1) =
          some (t0 + (n + 1) * dt)) := by
  constructor
  · simp [euler, List.get?_map, List.get?_range, Tarr, stateSeq]
  · intro n hn
    have hn' : n + 1 < arangeLen t0 Tf dt + 1 := Nat.succ_lt_succ hn
    simp [euler, List.get?_map, List.get?_range, hn', Tarr]

/-- Witness for C10 at `t0 = 5 ≠ 0`, `dt = 1`, `Tf = 7`: row 0 of the time
column is `0`, not `5`, and row 1 is `5 + 1 = 6`. -/
theorem euler_time_row_zero_witness :
    ((euler opsQ s0c 5 1 7 (S1c, S2c)).1.get? 0 =
        some (0, s0c.rx, s0c.ry, s0c.vx, s0c.vy)) ∧
      ((euler opsQ s0c 5 1 7 (S1c, S2c)).1.get? 1).map (fun r => r.1) =
        some (5 + (0 + 1) * 1) :=
  ⟨(euler_time_row_zero opsQ s0c 5 1 7 (S1c, S2c)).1,
    (euler_time_row_zero opsQ s0c 5 1 7 (S1c, S2c)).2 0 (by simp [arangeLen])⟩

/-- Claim C2: `EqOfM` selects the active mass and thrust by elapsed time —
the diagnostic mass is `s1.M − s1.mdot·t` and the thrust magnitude (the
factor in front of `cos ψ` / `sin ψ`) is `s1.Thrust` when `t ≤ s1.tb`, and
`s2.M − s2.mdot·(t − s1.tb)` with `s2.Thrust` otherwise; at exactly
`t = s1.tb` the stage-1 branch applies; and the position/velocity state is
untouched by the switch: the returned position derivative is always
`(vx, vy)` and the integrated state always advances by the same Euler update
`stateStep`, with only the derivative's mass/thrust terms changing across
the boundary. -/
theorem eqOfM_stage_selection (ops : MathOps) (s : SV) (t : ℚ) (s1 s2 : Stage) :
    ((EqOfM ops s t (s1, s2)).2.M =
        if t ≤ s1.tb then s1.M - s1.mdot * t else s2.M - s2.mdot * (t - s1.tb)) ∧
    ((EqOfM ops s t (s1, s2)).2.Tx =
        (if t ≤ s1.tb then s1.Thrust else s2.Thrust) * ops.cos (psiOf ops s t s1)) ∧
    ((EqOfM ops s t (s1, s2)).2.Ty =
        (if t ≤ s1.tb then s1.Thrust else s2.Thrust) * ops.sin (psiOf ops s t s1)) ∧
    ((EqOfM ops s s1.tb (s1, s2)).2.M = s1.M - s1.mdot * s1.tb) ∧
    ((EqOfM ops s s1.tb (s1, s2)).2.Tx = s1.Thrust * ops.cos (psiOf ops s s1.tb s1)) ∧
    ((EqOfM ops s t (s1, s2)).1.rx = s.vx) ∧
    ((EqOfM ops s t (s1, s2)).1.ry = s.vy) ∧
    (∀ (STATE0 : SV) (t0 dt : ℚ) (n : ℕ),
      stateSeq ops STATE0 t0 dt (s1, s2) (n + 1) =
        stateStep ops (s1, s2) dt (stateSeq ops STATE0 t0 dt (s1, s2) n) (t0 + n * dt)) := by
  refine ⟨rfl, rfl, rfl, ?_, ?_, rfl, rfl, fun STATE0 t0 dt n => rfl⟩
  · simp [EqOfM, le_refl]
  · simp [EqOfM, le_refl]

/-- Claim C3: `EqOfM` sets the thrust-pointing angle `psi` to `deg2rad 90`
by default; when `t < s1.tb + 300` and the altitude
`h = sqrt(rx² + ry²) − 6378e3` exceeds `100`, `psi` is `deg2rad 87` if the
flight-path angle `phi = atan2(vy, vx)` exceeds `deg2rad 83` and `phi`
otherwise; outside that time/altitude window `psi` stays at `deg2rad 90`.
The diagnostic `phi` entry is `atan2(vy, vx)`, and the thrust components are
`TT·cos psi`, `TT·sin psi` for this `psi`. -/
theorem eqOfM_gravity_turn (ops : MathOps) (s : SV) (t : ℚ) (s1 s2 : Stage) :
    (psiOf ops s t s1 =
        if t < s1.tb + 300 ∧ ops.sqrt (s.rx ^ 2 + s.ry ^ 2) - (6378e3 : ℚ) > 100 then
          if ops.atan2 s.vy s.vx > deg2rad ops 83 then deg2rad ops 87 else ops.atan2 s.vy s.vx
        else deg2rad ops 90) ∧
    ((EqOfM ops s t (s1, s2)).2.phi = ops.atan2 s.vy s.vx) ∧
    ((EqOfM ops s t (s1, s2)).2.Tx =
        (if t ≤ s1.tb then s1.Thrust else s2.Thrust) * ops.cos (psiOf ops s t s1)) ∧
    ((EqOfM ops s t (s1, s2)).2.Ty =
        (if t ≤ s1.tb then s1.Thrust else s2.Thrust) * ops.sin (psiOf ops s t s1)) := by
  refine ⟨?_, rfl, rfl, rfl⟩
  unfold psiOf
  by_cases h1 : t < s1.tb + 300
  · by_cases h2 : ops.sqrt (s.rx ^ 2 + s.ry ^ 2) - (6378e3 : ℚ) > 100
    · simp [h1, h2]
    · simp [h1, h2]
  · simp [h1]

/-- Claim C4: `GetDrag` computes the Mach number `M = V / sqrt(1.14·287·T)`
with `(T, rho)` from the atmosphere model, selects `Cd` from the four-regime
piecewise polynomial with breakpoints at `M = 1.25`, `4`, `10` (constant
`0.255` above `10`), and returns
`(0.5·rho·vx·V·A·Cd, 0.5·rho·vy·V·A·Cd)` — i.e. it refines the spec-worded
`getDragClaim` at every input. -/
theorem getDrag_eq_claim (ops : MathOps) (s : Stage) (h V vx vy : ℚ) :
    Stage.GetDrag ops s h V vx vy = getDragClaim ops s h V vx vy := by
  unfold Stage.GetDrag getDragClaim
  simp only [cdSelect_eq_cdClaim]

/-- Claim C8: `EqOfM` computes drag by calling `GetDrag` on the first stage
of the pair, with stage 1's aerodynamic parameters, at
`(R − 6378e3, V, vx, vy)` — for every `t`, in particular after stage 2
ignites (`t > s1.tb`); replacing the second stage by any other stage leaves
the drag diagnostics unchanged. -/
theorem eqOfM_drag_uses_stage1 (ops : MathOps) (s : SV) (t : ℚ) (s1 s2 s2' : Stage) :
    (((EqOfM ops s t (s1, s2)).2.Dx, (EqOfM ops s t (s1, s2)).2.Dy) =
        Stage.GetDrag ops s1 (ops.sqrt (s.rx ^ 2 + s.ry ^ 2) - (6378e3 : ℚ))
          (ops.sqrt (s.vx ^ 2 + s.vy ^ 2)) s.vx s.vy) ∧
    ((EqOfM ops s t (s1, s2)).2.Dx = (EqOfM ops s t (s1, s2')).2.Dx) ∧
    ((EqOfM ops s t (s1, s2)).2.Dy = (EqOfM ops s t (s1, s2')).2.Dy) :=
  ⟨rfl, rfl, rfl⟩

/-- Whether `Stage.__init__` completed without raising. -/
def isOkE : Except PyError Stage → Bool
  | Except.ok _ => true
  | Except.error _ => false

/-- Counterexample to claim C5 as stated: at the driver's stage-1 parameters
(`Thrust = 7426e3`, `Isp = 282`, `Mf = 411e3`, `Mp = 116e3`,
`main_e.py` line 213) the constructor succeeds but the derived burn time is
`Mf·Isp·9.81/Thrust`, not the claimed `Mp·Isp·9.81/Thrust`: the code divides
`Mf` (line 33), not the propellant mass `Mp`, by the mass flow rate. -/
theorem stage_burn_time_claim_false :
    isOkE (mkStage ("Stage 1") 7426000 (0.3 : ℚ) (10.75 : ℚ) 282 27200 411000 116000) = true ∧
      tbOf (mkStage ("Stage 1") 7426000 (0.3 : ℚ) (10.75 : ℚ) 282 27200 411000 116000) ≠
        116000 * 282 * (9.81 : ℚ) / 7426000 := by
  norm_num [mkStage, isOkE, tbOf]

/-- Claim C5 amended: for every stage constructed with `Isp ≠ 0` and
`Thrust ≠ 0`, construction succeeds, the derived mass flow rate equals
`Thrust/(Isp·9.81)` exactly, the derived burn time equals
`Mf·(Isp·9.81)/Thrust` exactly (it is the final/residual mass `Mf`, not the
propellant mass `Mp`, that is divided by the mass flow rate), and the total
mass is `Ms + Mf + Mp`. -/
theorem mkStage_derived_constants (Name : String) (Thrust Cd A Isp Ms Mf Mp : ℚ)
    (hI : Isp ≠ 0) (hT : Thrust ≠ 0) :
    ∃ s : Stage, mkStage Name Thrust Cd A Isp Ms Mf Mp = Except.ok s ∧
      s.mdot = Thrust / (Isp * (9.81 : ℚ)) ∧
      s.tb = Mf * (Isp * (9.81 : ℚ)) / Thrust ∧
      s.M = Ms + Mf + Mp := by
  have hden : Isp * (9.81 : ℚ) ≠ 0 := mul_ne_zero hI (by norm_num)
  have hmdot : Thrust / (Isp * (9.81 : ℚ)) ≠ 0 := div_ne_zero hT hden
  refine ⟨⟨Name, Thrust, Cd, A, Isp, Ms, Mf, Mp, Thrust / (Isp * (9.81 : ℚ)),
      Mf / (Thrust / (Isp * (9.81 : ℚ))), Ms + Mf + Mp⟩, ?_, rfl, ?_, rfl⟩
  · simp [mkStage, hden, hmdot]
  · exact div_div_eq_mul_div Mf Thrust (Isp * (9.81 : ℚ))

/-- Witness for the amended C5 at `Thrust = 981`, `Isp = 100`, `Mf = 1000`:
both hypotheses hold and the constructed stage has
`mdot = 981/(100·9.81) = 1` and `tb = 1000·(100·9.81)/981 = 1000`. -/
theorem mkStage_derived_constants_witness :
    (100 : ℚ) ≠ 0 ∧ (981 : ℚ) ≠ 0 ∧
      ∃ s : Stage, mkStage ("S1") 981 (0.3 : ℚ) 1 100 10 1000 5 = Except.ok s ∧
        s.mdot = 981 / (100 * (9.81 : ℚ)) ∧
        s.tb = 1000 * (100 * (9.81 : ℚ)) / 981 ∧
        s.M = 10 + 1000 + 5 :=
  ⟨by decide, by decide,
    mkStage_derived_constants ("S1") 981 (0.3 : ℚ) 1 100 10 1000 5 (by decide) (by decide)⟩

/-- Counterexample to claim C6 as stated: constructing a stage with
`Isp = -5 ≤ 0` does not fail at all — `Stage.__init__` contains no
validation and no `InvalidConfiguration` error exists in the code; the
construction succeeds with a negative mass flow rate. -/
theorem mkStage_negative_isp_succeeds :
    ((-5 : ℚ) ≤ 0) ∧
      isOkE (mkStage ("S") 1000 (0.3 : ℚ) 10 (-5) 100 100 100) = true := by
  norm_num [mkStage, isOkE]

/-- Claim C6 amended: `Stage` construction performs no validation.  With
`Isp ≠ 0` and `Thrust ≠ 0` it always succeeds — even for negative `Isp` or a
negative derived mass flow rate; it fails only with a `ZeroDivisionError`
(never an `InvalidConfiguration` error) when `Isp = 0` (the `mdot` division)
or when `Isp ≠ 0` and `Thrust = 0` (so `mdot = 0` and the `tb` division
divides by zero). -/
theorem mkStage_no_validation (Name : String) (Thrust Cd A Isp Ms Mf Mp : ℚ) :
    (Isp = 0 → mkStage Name Thrust Cd A Isp Ms Mf Mp = Except.error PyError.zeroDivision) ∧
    (Isp ≠ 0 → Thrust = 0 →
      mkStage Name Thrust Cd A Isp Ms Mf Mp = Except.error PyError.zeroDivision) ∧
    (Isp ≠ 0 → Thrust ≠ 0 → isOkE (mkStage Name Thrust Cd A Isp Ms Mf Mp) = true) := by
  refine ⟨?_, ?_, ?_⟩
  · intro hI
    simp [mkStage, hI]
  · intro hI hT
    have hden : Isp * (9.81 : ℚ) ≠ 0 := mul_ne_zero hI (by norm_num)
    simp [mkStage, hden, hT]
  · intro hI hT
    have hden : Isp * (9.81 : ℚ) ≠ 0 := mul_ne_zero hI (by norm_num)
    have hmdot : Thrust / (Isp * (9.81 : ℚ)) ≠ 0 := div_ne_zero hT hden
    simp [mkStage, hden, hmdot, isOkE]

/-- Witness for the amended C6 at `Isp = -5`, `Thrust = 1000`: both side
conditions hold and construction succeeds despite the non-positive `Isp`. -/
theorem mkStage_no_validation_witness :
    ((-5 : ℚ) ≠ 0) ∧ ((1000 : ℚ) ≠ 0) ∧
      isOkE (mkStage ("T") 1000 (0.3 : ℚ) 10 (-5) 100 100 100) = true :=
  ⟨by decide, by decide,
    (mkStage_no_validation ("T") 1000 (0.3 : ℚ) 10 (-5) 100 100 100).2.2 (by decide) (by decide)⟩

/-- Counterexample to claim C7 as stated: at the breakpoint `M = 10` the two
adjacent pieces of the drag-coefficient curve — the third polynomial and the
constant `0.255` — are not nearly equal: `cd3 10 = 0.1182` and the pieces
differ by more than `0.1`, far outside any floating-point tolerance. -/
theorem cd_curve_discontinuous_at_10 :
    cd3 10 = (0.1182 : ℚ) ∧ (1/10 : ℚ) < (0.255 : ℚ) - cd3 10 := by
  norm_num [cd3]

/-- Claim C7 amended: the drag-coefficient curve is only approximately
continuous at the first breakpoint and genuinely discontinuous at the other
two: at `M = 1.25` the adjacent polynomials differ by `0.00035546875`
(within `10⁻³`), while at `M = 4` they differ by `0.0175` and at `M = 10`
the polynomial `cd3` and the constant `0.255` differ by `0.1368`. -/
theorem cd_breakpoint_gaps :
    cd1 (1.25 : ℚ) - cd2 (1.25 : ℚ) = (0.00035546875 : ℚ) ∧
    (0.00035546875 : ℚ) < (0.001 : ℚ) ∧
    cd2 4 - cd3 4 = (0.0175 : ℚ) ∧
    (0.255 : ℚ) - cd3 10 = (0.1368 : ℚ) := by
  norm_num [cd1, cd2, cd3]

end LaunchSim
